import Mathlib

/-!
Verification of the analysis→plan→score core of the ATG video pipeline.

The definitions below are a shallow embedding of the two core modules:
`backend/visual_pattern_analyzer.py` (pattern detection, concept
extraction, scene planning) and `backend/quality_assessor.py`
(multi-metric quality scoring).  Python floats are modelled as `ℚ`
(every constant in the source is decimal and every computed quantity in
the claims is exact in `ℚ`), Python lists as `List`, and the
insertion-ordered dictionaries as association lists in insertion order.
Human-readable `message` strings of metric results are presentational
f-strings never examined by any logic and are omitted from the record.
-/

namespace ATG

/-! ## Python string primitives used by the source -/

/-- Substring containment, the semantics of Python's `kw in text` for a
non-empty `kw`: some suffix of `s` has `pat` as a prefix. -/
def strContainsSub (s pat : String) : Bool :=
  s.toList.tails.any (fun t => pat.toList.isPrefixOf t)

/-- Lower-casing of a string, the semantics of Python's `str.lower` on
the ASCII inputs the analyzer deals with. -/
def pyLower (s : String) : String :=
  String.mk (s.toList.map Char.toLower)

/-- Splitter on maximal runs of delimiter characters, the semantics of
Python's `re.split(r'[.!?]+', text)`: a run of delimiters is one
separator, and leading/trailing delimiters produce empty fields.  A
delimiter followed by another delimiter is absorbed into the same
separator; otherwise it opens a new (initially empty) field. -/
def splitRunsAux (isDelim : Char → Bool) : List Char → List (List Char)
  | [] => [[]]
  | c :: cs =>
    if isDelim c then
      match cs with
      | [] => [[], []]
      | c' :: _ =>
        if isDelim c' then splitRunsAux isDelim cs
        else [] :: splitRunsAux isDelim cs
    else
      match splitRunsAux isDelim cs with
      | [] => [[c]]
      | f :: fs => (c :: f) :: fs

/-- `re.split` on a character class: split on maximal runs of any of the
given characters. -/
def pySplit (delims : List Char) (s : String) : List String :=
  (splitRunsAux (fun c => delims.contains c) s.toList).map String.mk

/-- Python's `str.split()` with no argument: split on whitespace runs,
discarding empty fields. -/
def pyWords (s : String) : List String :=
  ((splitRunsAux (fun c => c.isWhitespace) s.toList).map String.mk).filter
    (fun w => w ≠ "")

/-- Python's `str.strip(chars)`: remove any of `chars` from both ends. -/
def pyStrip (chars : List Char) (s : String) : String :=
  String.mk (((s.toList.dropWhile (fun c => chars.contains c)).reverse.dropWhile
    (fun c => chars.contains c)).reverse)

/-- First-seen deduplication worker.  The source deduplicates with
`list(set(concepts))`, whose order is an unspecified hash order; the
embedding fixes the deterministic first-seen order (the spec's flagged
policy choice).  Every claim about the output is order-insensitive. -/
def dedupGo : List String → List String → List String
  | _, [] => []
  | seen, a :: l => if a ∈ seen then dedupGo seen l else a :: dedupGo (a :: seen) l

/-- First-seen deduplication of a list of strings. -/
def dedupFirst (l : List String) : List String := dedupGo [] l

/-! ## `visual_pattern_analyzer.py` -/

/-- The ordered keyword table `self.visual_patterns` of
`VisualPatternAnalyzer.__init__` (declaration order preserved, as in the
insertion-ordered Python dict). -/
def visual_patterns : List (String × List String) :=
  [ ("comparison", ["vs", "versus", "compared to", "difference between", "contrast"]),
    ("process", ["step", "process", "flow", "sequence", "procedure", "how to"]),
    ("hierarchy", ["structure", "organization", "levels", "hierarchy", "layers"]),
    ("relationship", ["relationship", "connection", "linked", "related", "association"]),
    ("timeline", ["timeline", "history", "evolution", "chronology", "over time"]),
    ("statistics", ["data", "statistics", "percentage", "number", "chart", "graph"]),
    ("concept", ["concept", "idea", "principle", "theory", "fundamental"]) ]

/-- The `detected_patterns` dict of `analyze_content`: for each category
in declaration order, the number of its distinct keywords occurring in
the lower-cased text; only categories with count > 0 are kept. -/
def detected_patterns (text : String) : List (String × Nat) :=
  let text_lower := pyLower text
  (visual_patterns.map
    (fun pc => (pc.1, (pc.2.filter (fun kw => strContainsSub text_lower kw)).length))).filter
    (fun p => p.2 > 0)

/-- Stable descending insertion step on the hit count (second
component): an element moves ahead of strictly smaller counts and stays
behind earlier elements of equal count. -/
def insertDesc (x : String × Nat) : List (String × Nat) → List (String × Nat)
  | [] => [x]
  | y :: l => if x.2 ≥ y.2 then x :: y :: l else y :: insertDesc x l

/-- Stable sort by descending count, the semantics of the source's
`sorted(detected_patterns.items(), key=lambda x: x[1], reverse=True)`
(Python's `sorted` is stable, so ties keep insertion order). -/
def sortDesc : List (String × Nat) → List (String × Nat)
  | [] => []
  | x :: l => insertDesc x (sortDesc l)

/-- The `sorted_patterns` list of `analyze_content`. -/
def sorted_patterns (text : String) : List (String × Nat) :=
  sortDesc (detected_patterns text)

/-- `primary_pattern = sorted_patterns[0][0] if sorted_patterns else 'concept'`. -/
def primary_pattern (text : String) : String :=
  match sorted_patterns text with
  | [] => "concept"
  | p :: _ => p.1

/-- `VisualPatternAnalyzer._extract_key_concepts`. -/
def _extract_key_concepts (text : String) : List String :=
  let sentences := pySplit ['.', '!', '?'] text
  let concepts := ((sentences.take 5).map (fun sentence =>
    (pyWords sentence).filterMap (fun word =>
      if word ≠ "" ∧ ((word.toList.headD ' ').isUpper
          ∨ pyLower word ∈ ["important", "key", "main", "primary"]) then
        if word.length > 3 ∧ word ∉ ["The", "This", "That", "With"] then
          some (pyStrip ['.', ',', '!', '?'] word)
        else none
      else none))).flatten
  (dedupFirst concepts).take 8

/-- A scene descriptor of `_recommend_scenes`.  `type`, `duration` and
`visual` are the mandatory dict keys; `repeat_count` models the optional
`repeat` key (present only on the process template's steps scene), read
back with `scene.get('repeat', 1)`. -/
structure Scene where
  type : String
  duration : Nat
  visual : String
  repeat_count : Option Nat := none
deriving DecidableEq, Repr

/-- The `scene_templates` dict of `_recommend_scenes` (it is rebuilt per
call because the `steps` entry captures `concept_count`). -/
def scene_templates (concept_count : Nat) : List (String × List Scene) :=
  [ ("comparison",
      [ { type := "intro", duration := 3, visual := "split_screen" },
        { type := "comparison", duration := 5, visual := "side_by_side" },
        { type := "conclusion", duration := 2, visual := "merge" } ]),
    ("process",
      [ { type := "intro", duration := 3, visual := "title" },
        { type := "steps", duration := 2, visual := "flowchart", repeat_count := some concept_count },
        { type := "summary", duration := 3, visual := "overview" } ]),
    ("hierarchy",
      [ { type := "intro", duration := 3, visual := "title" },
        { type := "structure", duration := 6, visual := "tree_diagram" },
        { type := "details", duration := 4, visual := "zoom_in" } ]),
    ("timeline",
      [ { type := "intro", duration := 3, visual := "title" },
        { type := "timeline", duration := 7, visual := "horizontal_timeline" },
        { type := "conclusion", duration := 2, visual := "summary" } ]),
    ("concept",
      [ { type := "intro", duration := 3, visual := "fade_in" },
        { type := "explanation", duration := 5, visual := "bullet_points" },
        { type := "conclusion", duration := 2, visual := "fade_out" } ]) ]

/-- `VisualPatternAnalyzer._recommend_scenes`:
`scene_templates.get(pattern_type, scene_templates['concept'])`. -/
def _recommend_scenes (pattern_type : String) (concept_count : Nat) : List Scene :=
  ((scene_templates concept_count).lookup pattern_type).getD
    (((scene_templates concept_count).lookup "concept").getD [])

/-- The duration totalled by `generate_visual_blueprint`:
`Σ scene['duration'] * scene.get('repeat', 1)`. -/
def total_duration (scenes : List Scene) : Nat :=
  (scenes.map (fun s => s.duration * s.repeat_count.getD 1)).sum

/-- The analysis record returned by `analyze_content`. -/
structure AnalysisRecord where
  primary_visual_pattern : String
  all_patterns : List (String × Nat)
  key_concepts : List String
  word_count : Nat
  sentence_count : Nat
  recommended_scenes : List Scene
deriving DecidableEq, Repr

/-- `VisualPatternAnalyzer.analyze_content`. -/
def analyze_content (text : String) : AnalysisRecord :=
  let key_concepts := _extract_key_concepts text
  { primary_visual_pattern := primary_pattern text
    all_patterns := sorted_patterns text
    key_concepts := key_concepts
    word_count := (pyWords text).length
    sentence_count := (pySplit ['.', '!', '?'] text).length
    recommended_scenes := _recommend_scenes (primary_pattern text) key_concepts.length }

/-! ## `quality_assessor.py` -/

/-- The artifact metadata consumed by `assess_video`; the source reads
the three keys with `metadata.get(key, 0)`. -/
structure ArtifactMetadata where
  duration : ℚ
  scene_count : Nat
  concept_count : Nat
deriving DecidableEq, Repr

/-- One metric result: the `score`/`status` pair of the dicts the
`_assess_*` helpers return (the presentational `message` f-string is
omitted; no logic reads it). -/
structure MetricResult where
  score : ℚ
  status : String
deriving DecidableEq, Repr

/-- `VideoQualityAssessor._assess_duration`, thresholds
`min=10, max=300, optimal=(30, 120)` from `quality_thresholds`. -/
def _assess_duration (duration : ℚ) : MetricResult :=
  if duration < 10 then { score := 0.4, status := "too_short" }
  else if duration > 300 then { score := 0.6, status := "too_long" }
  else if 30 ≤ duration ∧ duration ≤ 120 then { score := 1.0, status := "optimal" }
  else { score := 0.8, status := "acceptable" }

/-- `VideoQualityAssessor._assess_scene_count`, thresholds
`min=2, max=15, optimal=(3, 8)`. -/
def _assess_scene_count (scene_count : Nat) : MetricResult :=
  if scene_count < 2 then { score := 0.5, status := "too_few" }
  else if scene_count > 15 then { score := 0.6, status := "too_many" }
  else if 3 ≤ scene_count ∧ scene_count ≤ 8 then { score := 1.0, status := "optimal" }
  else { score := 0.8, status := "acceptable" }

/-- `VideoQualityAssessor._assess_pacing`, optimal range `(3, 8)`
seconds per scene. -/
def _assess_pacing (pacing : ℚ) : MetricResult :=
  if pacing < 3 then { score := 0.6, status := "too_fast" }
  else if pacing > 8 then { score := 0.7, status := "too_slow" }
  else { score := 1.0, status := "optimal" }

/-- `VideoQualityAssessor._assess_clarity`: guarded against zero
duration, otherwise scored on `concept_count / duration * 60`. -/
def _assess_clarity (concept_count : Nat) (duration : ℚ) : MetricResult :=
  if duration = 0 then { score := 0, status := "unknown" }
  else
    let concepts_per_minute := ((concept_count : ℚ) / duration) * 60
    if concepts_per_minute < 1 then { score := 0.7, status := "low_density" }
    else if concepts_per_minute > 8 then { score := 0.6, status := "high_density" }
    else { score := 1.0, status := "optimal" }

/-- The fixed message table of `_generate_recommendations`: the nested
`if metric_name == ... / if status == ...` chain, returning the emitted
message (as a zero- or one-element list; unmatched pairs emit
nothing). -/
def recommendation_messages (metric_name status : String) : List String :=
  if metric_name = "duration" then
    if status = "too_short" then ["Add more explanatory scenes to increase duration"]
    else if status = "too_long" then ["Consider splitting into multiple shorter videos"]
    else []
  else if metric_name = "scene_structure" then
    if status = "too_few" then ["Add more visual variety with additional scenes"]
    else if status = "too_many" then ["Consolidate similar scenes for better flow"]
    else []
  else if metric_name = "pacing" then
    if status = "too_fast" then ["Slow down transitions and add pause points"]
    else if status = "too_slow" then ["Reduce scene duration for better engagement"]
    else []
  else if metric_name = "content_clarity" then
    if status = "high_density" then ["Break complex concepts into simpler parts"]
    else if status = "low_density" then ["Add more details and examples"]
    else []
  else []

/-- `VideoQualityAssessor._generate_recommendations`: one table message
per metric scoring below 0.7, with a fixed fallback when nothing was
emitted. -/
def _generate_recommendations (metrics : List (String × MetricResult)) : List String :=
  let recommendations := (metrics.map (fun m =>
    if m.2.score < 0.7 then recommendation_messages m.1 m.2.status else [])).flatten
  if recommendations.isEmpty then
    ["Video quality is excellent! No major improvements needed"]
  else recommendations

/-- The assessment record built by `assess_video` (an insertion-ordered
dict; `metrics` keeps evaluation order). -/
structure QualityRecord where
  overall_score : ℚ
  metrics : List (String × MetricResult)
  recommendations : List String
  strengths : List String
  weaknesses : List String
  rating : String
deriving DecidableEq, Repr

/-- `VideoQualityAssessor.assess_video`.  The source's only use of
`video_path` is the `video_file.exists()` check; the existence outcome
is the `artifact_exists` parameter.  The non-existence branch returns
the demo record (the initial defaults overridden as in the source); the
main branch computes the four metrics in order, skipping pacing when
`scene_count` is 0. -/
def assess_video (artifact_exists : Bool) (metadata : ArtifactMetadata) : QualityRecord :=
  if artifact_exists = false then
    { overall_score := 0.75
      metrics := [("file_exists", { score := 0, status := "fail" })]
      recommendations := ["Enable API mode and render video for full assessment"]
      strengths := []
      weaknesses := []
      rating := "Good (Demo)" }
  else
    let duration := metadata.duration
    let duration_score := _assess_duration duration
    let scene_count := metadata.scene_count
    let scene_score := _assess_scene_count scene_count
    let metrics_before_pacing := [("duration", duration_score), ("scene_structure", scene_score)]
    let metrics_with_pacing :=
      if scene_count > 0 then
        metrics_before_pacing ++ [("pacing", _assess_pacing (duration / (scene_count : ℚ)))]
      else metrics_before_pacing
    let metrics := metrics_with_pacing ++
      [("content_clarity", _assess_clarity metadata.concept_count duration)]
    let metric_scores := metrics.map (fun m => m.2.score)
    let overall_score :=
      if metric_scores.isEmpty then 0
      else metric_scores.sum / (metric_scores.length : ℚ)
    { overall_score := overall_score
      metrics := metrics
      recommendations := _generate_recommendations metrics
      strengths := (metrics.filter (fun m => decide (m.2.score ≥ 0.8))).map (fun m => m.1)
      weaknesses := (metrics.filter
        (fun m => decide (¬ m.2.score ≥ 0.8 ∧ m.2.score < 0.6))).map (fun m => m.1)
      rating :=
        if overall_score ≥ 0.8 then "Excellent"
        else if overall_score ≥ 0.7 then "Good"
        else if overall_score ≥ 0.6 then "Fair"
        else "Needs Improvement" }

/-! ## Helper lemmas -/

/-- The maximal hit count of a detected-pattern list (0 when empty). -/
def maxCount (l : List (String × Nat)) : Nat :=
  (l.map Prod.snd).foldr max 0

theorem mem_dedupGo {seen l : List String} {a : String} (h : a ∈ dedupGo seen l) :
    a ∈ l := by
  induction l generalizing seen with
  | nil => rw [dedupGo] at h; cases h
  | cons b t ih =>
    rw [dedupGo] at h
    split at h
    · exact List.mem_cons_of_mem _ (ih h)
    · rcases List.mem_cons.mp h with rfl | h'
      · exact List.mem_cons_self _ _
      · exact List.mem_cons_of_mem _ (ih h')

theorem insertDesc_ne_nil (x : String × Nat) (l : List (String × Nat)) :
    insertDesc x l ≠ [] := by
  cases l with
  | nil => simp [insertDesc]
  | cons y t => rw [insertDesc]; split <;> simp

theorem sortDesc_ne_nil {l : List (String × Nat)} (h : l ≠ []) :
    sortDesc l ≠ [] := by
  cases l with
  | nil => exact absurd rfl h
  | cons x t => rw [sortDesc]; exact insertDesc_ne_nil _ _

theorem head?_insertDesc (x y : String × Nat) (l : List (String × Nat)) :
    (insertDesc x (y :: l)).head? = some (if x.2 ≥ y.2 then x else y) := by
  rw [insertDesc]; split <;> simp

theorem le_foldr_max {a : Nat} {l : List Nat} (h : a ∈ l) : a ≤ l.foldr max 0 := by
  induction l with
  | nil => cases h
  | cons b t ih =>
    rcases List.mem_cons.mp h with rfl | h'
    · exact Nat.le_max_left _ _
    · exact le_trans (ih h') (Nat.le_max_right _ _)

theorem foldr_max_le {l : List Nat} {n : Nat} (h : ∀ a ∈ l, a ≤ n) :
    l.foldr max 0 ≤ n := by
  induction l with
  | nil => exact Nat.zero_le _
  | cons b t ih =>
    exact Nat.max_le.mpr ⟨h b (List.mem_cons_self _ _),
      ih (fun a ha => h a (List.mem_cons_of_mem _ ha))⟩

/-- The head of the stable descending sort is the first element of the
input attaining the maximal count: descending order puts a maximal
element first, and stability keeps the earliest such element in front of
later ties. -/
theorem sortDesc_head : ∀ (l : List (String × Nat)), l ≠ [] →
    (sortDesc l).head? = l.find? (fun p => p.2 == maxCount l) := by
  intro l
  induction l with
  | nil => intro h; exact absurd rfl h
  | cons x t ih =>
    intro _
    rcases t with _ | ⟨y, t'⟩
    · simp [sortDesc, insertDesc, maxCount, List.find?]
    · have htne : (y :: t') ≠ ([] : List (String × Nat)) := by simp
      have ih' := ih htne
      obtain ⟨z, r, hzr⟩ := List.exists_cons_of_ne_nil (sortDesc_ne_nil htne)
      rw [hzr] at ih'
      have hfind : List.find? (fun p => p.2 == maxCount (y :: t')) (y :: t') = some z := by
        rw [← ih']; rfl
      have hz2 : z.2 = maxCount (y :: t') := by
        have hp := List.find?_some hfind
        simp at hp
        exact hp
      have hmax : maxCount (x :: y :: t') = max x.2 (maxCount (y :: t')) := by
        simp [maxCount]
      show (insertDesc x (sortDesc (y :: t'))).head? = _
      rw [hzr, head?_insertDesc]
      by_cases hx : x.2 ≥ maxCount (y :: t')
      · have hm : maxCount (x :: y :: t') = x.2 := by
          rw [hmax]; exact Nat.max_eq_left hx
        rw [hm, List.find?_cons_of_pos _ (by simp)]
        have : x.2 ≥ z.2 := by rw [hz2]; exact hx
        rw [if_pos this]
      · have hlt : x.2 < maxCount (y :: t') := Nat.lt_of_not_le hx
        have hm : maxCount (x :: y :: t') = maxCount (y :: t') := by
          rw [hmax]; exact Nat.max_eq_right (le_of_lt hlt)
        rw [hm, List.find?_cons_of_neg _ (by simp; exact Nat.ne_of_lt hlt), hfind]
        have : ¬ x.2 ≥ z.2 := by rw [hz2]; exact hx
        rw [if_neg this]

theorem mem_of_lookup_eq_some {β : Type} {k : String} {v : β} :
    ∀ {l : List (String × β)}, List.lookup k l = some v → (k, v) ∈ l := by
  intro l h
  induction l with
  | nil => simp [List.lookup] at h
  | cons p t ih =>
    rcases p with ⟨k', v'⟩
    rw [List.lookup] at h
    rcases hbeq : k == k' with _ | _
    · rw [hbeq] at h
      exact List.mem_cons_of_mem _ (ih h)
    · rw [hbeq] at h
      have hk : k = k' := eq_of_beq hbeq
      cases h
      subst hk
      exact List.mem_cons_self _ _

/-! ## Claims -/

/-- C1 (counterexample): the demo-mode record's single recommendation is
the source string "Enable API mode and render video for full
assessment", not the string "Enable full rendering for complete
assessment" the claim names. -/
theorem demo_recommendation_cex :
    (assess_video false { duration := 0, scene_count := 0, concept_count := 0 }).recommendations
        = ["Enable API mode and render video for full assessment"] ∧
    "Enable API mode and render video for full assessment"
        ≠ "Enable full rendering for complete assessment" := by
  constructor
  · rfl
  · decide

/-- C1 (amended): for every metadata value, `assess_video` with
`artifact_exists = false` returns the fixed short-circuit record —
overall_score 0.75, rating GoodDemo (source string "Good (Demo)"),
exactly the one metric `file_exists` with score 0 and status "fail", and
exactly the one recommendation "Enable API mode and render video for
full assessment" — independent of the metadata contents. -/
theorem demo_record_fixed (metadata : ArtifactMetadata) :
    assess_video false metadata =
      { overall_score := 0.75
        metrics := [("file_exists", { score := 0, status := "fail" })]
        recommendations := ["Enable API mode and render video for full assessment"]
        strengths := []
        weaknesses := []
        rating := "Good (Demo)" } := rfl

/-- C1 (amended, witness): the fixed demo record at a concrete
metadata value. -/
theorem demo_record_fixed_witness :
    (assess_video false { duration := 1, scene_count := 2, concept_count := 3 }).rating
      = "Good (Demo)" := by
  rw [demo_record_fixed]

/-- C2 (counterexample): `_recommend_scenes "process" 0` gives the steps
descriptor an effective repeat count of 0, not the claimed minimum of 1;
the per-scene effective repeats are [1, 0, 1] and the plan totals 6
seconds (the steps scene contributes nothing), where a minimum-of-1
policy would give [1, 1, 1] and 8 seconds. -/
theorem process_zero_concepts_cex :
    (_recommend_scenes "process" 0).map (fun s => s.repeat_count.getD 1) = [1, 0, 1] ∧
    total_duration (_recommend_scenes "process" 0) = 6 := by
  constructor <;> rfl

/-- C2 (amended): for every pattern and concept count, the "steps"
descriptor of the process template is the only descriptor carrying a
repeat count, and it is set exactly to `concept_count` with no minimum
applied (0 when `concept_count` is 0); every other descriptor of every
template has no repeat entry and hence effective repeat count 1. -/
theorem repeat_count_only_steps (pattern_type : String) (concept_count : Nat) :
    ({ type := "steps", duration := 2, visual := "flowchart",
        repeat_count := some concept_count } : Scene)
      ∈ _recommend_scenes "process" concept_count ∧
    ∀ s ∈ _recommend_scenes pattern_type concept_count,
      (s.type = "steps" → s.repeat_count = some concept_count) ∧
      (s.type ≠ "steps" → s.repeat_count = none) := by
  constructor
  · show _ ∈ [_, _, _]
    exact List.mem_cons_of_mem _ (List.mem_cons_self _ _)
  · intro s hs
    unfold _recommend_scenes at hs
    cases hlk : List.lookup pattern_type (scene_templates concept_count) with
    | none =>
      rw [hlk] at hs
      have hcon : List.lookup "concept" (scene_templates concept_count)
          = some [ { type := "intro", duration := 3, visual := "fade_in" },
                   { type := "explanation", duration := 5, visual := "bullet_points" },
                   { type := "conclusion", duration := 2, visual := "fade_out" } ] := rfl
      rw [hcon] at hs
      simp at hs
      rcases hs with rfl | rfl | rfl <;> exact ⟨by intro h; simp at h, fun _ => rfl⟩
    | some v =>
      rw [hlk] at hs
      have hv := mem_of_lookup_eq_some hlk
      simp [scene_templates] at hv
      rcases hv with ⟨-, rfl⟩ | ⟨-, rfl⟩ | ⟨-, rfl⟩ | ⟨-, rfl⟩ | ⟨-, rfl⟩ <;>
        simp at hs <;>
        rcases hs with rfl | rfl | rfl <;>
        first
          | exact ⟨by intro h; simp at h, fun _ => rfl⟩
          | exact ⟨fun _ => rfl, by intro h; exact absurd rfl h⟩

/-- C2 (amended, witness): the steps descriptor of the process plan for
3 concepts carries repeat count 3, and the intro descriptor of that plan
carries none. -/
theorem repeat_count_only_steps_witness :
    ({ type := "steps", duration := 2, visual := "flowchart",
        repeat_count := some 3 } : Scene) ∈ _recommend_scenes "process" 3 ∧
    ({ type := "intro", duration := 3, visual := "title",
        repeat_count := none } : Scene).repeat_count = none := by
  refine ⟨(repeat_count_only_steps "process" 3).1, ?_⟩
  exact ((repeat_count_only_steps "process" 3).2
    { type := "intro", duration := 3, visual := "title" } (by decide)).2 (by decide)

/-- C6: assessing an existing artifact with duration 45, 5 scenes and 6
concepts yields duration optimal 1.0, scene_structure optimal 1.0,
pacing too_slow 0.7 (45/5 = 9 > 8), content_clarity optimal 1.0 (density
6/45·60 = 8 is not strictly greater than 8), overall score 0.925 and
rating Excellent. -/
theorem assess_sample_video :
    (assess_video true { duration := 45, scene_count := 5, concept_count := 6 }).metrics
        = [ ("duration", { score := 1.0, status := "optimal" }),
            ("scene_structure", { score := 1.0, status := "optimal" }),
            ("pacing", { score := 0.7, status := "too_slow" }),
            ("content_clarity", { score := 1.0, status := "optimal" }) ] ∧
    (assess_video true { duration := 45, scene_count := 5, concept_count := 6 }).overall_score
        = 0.925 ∧
    (assess_video true { duration := 45, scene_count := 5, concept_count := 6 }).rating
        = "Excellent" := by
  refine ⟨?_, ?_, ?_⟩ <;> with_unfolding_all decide

/-- C9: the process plan for 3 concepts has per-scene effective
durations intro 3, steps 2×3 = 6, summary 3, and
`Σ base_duration × repeat_count` totals 12 seconds. -/
theorem process_plan_duration :
    (_recommend_scenes "process" 3).map (fun s => s.duration * s.repeat_count.getD 1)
        = [3, 6, 3] ∧
    total_duration (_recommend_scenes "process" 3) = 12 := by
  constructor <;> rfl

/-- C5: when two distinct categories are tied at the maximal
distinct-keyword hit count, the primary pattern is the tied category
earliest in the fixed declaration order: `detected_patterns` lists
categories in declaration order, and the primary pattern is the first of
its entries attaining the maximal count. -/
theorem primary_pattern_tie_break (text : String) (c₁ c₂ : String) (n : Nat)
    (h₁ : (c₁, n) ∈ detected_patterns text) (h₂ : (c₂, n) ∈ detected_patterns text)
    (hne : c₁ ≠ c₂)
    (hmax : ∀ p ∈ detected_patterns text, p.2 ≤ n) :
    ((detected_patterns text).find? (fun p => p.2 == n)).map Prod.fst
      = some (primary_pattern text) := by
  have hnil : detected_patterns text ≠ [] := by
    intro h
    rw [h] at h₁
    cases h₁
  have hn : maxCount (detected_patterns text) = n := by
    apply le_antisymm
    · apply foldr_max_le
      intro a ha
      obtain ⟨p, hp, rfl⟩ := List.mem_map.mp ha
      exact hmax p hp
    · exact le_foldr_max (List.mem_map_of_mem Prod.snd h₁)
  have hh := sortDesc_head (detected_patterns text) hnil
  rw [hn] at hh
  obtain ⟨z, r, hzr⟩ := List.exists_cons_of_ne_nil (sortDesc_ne_nil hnil)
  have hz : primary_pattern text = z.1 := by
    unfold primary_pattern sorted_patterns
    rw [hzr]
  have hfind : (detected_patterns text).find? (fun p => p.2 == n) = some z := by
    rw [← hh, hzr]
    rfl
  rw [hfind, hz]
  rfl

/-- C5 (witness): in "step data" the process and statistics categories
are tied with one keyword hit each, and the primary pattern is the
earlier-declared tied category, process. -/
theorem primary_pattern_tie_break_witness :
    ((detected_patterns "step data").find? (fun p => p.2 == 1)).map Prod.fst
        = some (primary_pattern "step data") ∧
    primary_pattern "step data" = "process" := by
  refine ⟨primary_pattern_tie_break "step data" "process" "statistics" 1
    (by decide) (by decide) (by decide) (by decide), by decide⟩

/-- C8: the core is total on malformed-but-well-typed input: the empty
text yields the default concept pattern, an empty pattern-score mapping
and an empty concept list; zero scenes omit the pacing metric instead of
dividing by zero; zero duration makes the clarity metric return score 0
with status unknown instead of dividing by zero. -/
theorem degenerate_inputs_guarded :
    ((analyze_content "").primary_visual_pattern = "concept" ∧
      (analyze_content "").all_patterns = [] ∧
      (analyze_content "").key_concepts = []) ∧
    (∀ metadata : ArtifactMetadata, metadata.scene_count = 0 →
      "pacing" ∉ (assess_video true metadata).metrics.map Prod.fst) ∧
    (∀ concept_count : Nat,
      _assess_clarity concept_count 0 = { score := 0, status := "unknown" }) := by
  refine ⟨by decide, ?_, ?_⟩
  · intro metadata h
    simp [assess_video, h]
  · intro concept_count
    with_unfolding_all rfl

/-- C8 (witness): with 0 scenes the pacing metric is absent, and with a
concrete concept count the zero-duration clarity guard fires. -/
theorem degenerate_inputs_guarded_witness :
    "pacing" ∉ (assess_video true
        { duration := 10, scene_count := 0, concept_count := 2 }).metrics.map Prod.fst ∧
    _assess_clarity 5 0 = { score := 0, status := "unknown" } :=
  ⟨degenerate_inputs_guarded.2.1 _ rfl, degenerate_inputs_guarded.2.2 5⟩

/-- C4 (counterexample): on the text "The, cat" the extractor returns
the single entry "The", which has length 3 (not greater than 3) and is
in the stop-list: the source applies the length and stop-list tests to
the raw word "The," before stripping its trailing comma, so the stripped
entry escapes both tests. -/
theorem extract_stop_list_cex :
    _extract_key_concepts "The, cat" = ["The"] ∧
    ("The" : String).length = 3 ∧
    "The" ∈ (["The", "This", "That", "With"] : List String) := by
  refine ⟨by decide, by decide, by decide⟩

/-- C4 (amended): extract returns at most 8 entries, and every entry is
a candidate word with its leading/trailing characters among `.,!?`
stripped, where the candidate — before stripping — has length greater
than 3 and is not in the stop-list {The, This, That, With}; the stripped
entry itself may be shorter than 4 characters or equal a stop-list
word. -/
theorem extract_key_concepts_sound (text : String) :
    (_extract_key_concepts text).length ≤ 8 ∧
    ∀ c ∈ _extract_key_concepts text, ∃ w : String,
      c = pyStrip ['.', ',', '!', '?'] w ∧ w.length > 3 ∧
      w ∉ (["The", "This", "That", "With"] : List String) := by
  unfold _extract_key_concepts
  constructor
  · exact List.length_take_le _ _
  · intro c hc
    have hc₁ : c ∈ dedupFirst _ := List.mem_of_mem_take hc
    have hc₂ := mem_dedupGo hc₁
    rw [List.mem_flatten] at hc₂
    obtain ⟨ws, hws, hcws⟩ := hc₂
    rw [List.mem_map] at hws
    obtain ⟨sentence, -, rfl⟩ := hws
    rw [List.mem_filterMap] at hcws
    obtain ⟨w, -, hwg⟩ := hcws
    refine ⟨w, ?_⟩
    split_ifs at hwg with h1 h2
    · cases hwg
      exact ⟨rfl, h2.1, h2.2⟩

/-- C4 (amended, witness): on "The, cat" the bound and the candidate
characterization hold concretely; the entry "The" comes from the
candidate "The," of length 4 outside the stop-list. -/
theorem extract_key_concepts_sound_witness :
    (_extract_key_concepts "The, cat").length ≤ 8 ∧
    ∃ w : String, "The" = pyStrip ['.', ',', '!', '?'] w ∧ w.length > 3 ∧
      w ∉ (["The", "This", "That", "With"] : List String) :=
  ⟨(extract_key_concepts_sound "The, cat").1,
    (extract_key_concepts_sound "The, cat").2 "The" (by decide)⟩

theorem mem_generate_recommendations {l : List (String × MetricResult)}
    {p : String × MetricResult} (hp : p ∈ l) (hlt : p.2.score < 0.7)
    {s : String} (hsm : s ∈ recommendation_messages p.1 p.2.status) :
    s ∈ _generate_recommendations l := by
  unfold _generate_recommendations
  have hmem : s ∈ (l.map (fun m =>
      if m.2.score < 0.7 then recommendation_messages m.1 m.2.status else [])).flatten := by
    rw [List.mem_flatten]
    exact ⟨_, List.mem_map_of_mem _ hp, by rw [if_pos hlt]; exact hsm⟩
  rw [if_neg]
  · exact hmem
  · simp only [List.isEmpty_iff]
    exact List.ne_nil_of_mem hmem

theorem generate_recommendations_fallback {l : List (String × MetricResult)}
    (h : ∀ p ∈ l, ¬ p.2.score < 0.7) :
    _generate_recommendations l
      = ["Video quality is excellent! No major improvements needed"] := by
  unfold _generate_recommendations
  have hnil : (l.map (fun m =>
      if m.2.score < 0.7 then recommendation_messages m.1 m.2.status else [])).flatten = [] := by
    rw [List.flatten_eq_nil_iff]
    intro sub hsub
    obtain ⟨p, hp, rfl⟩ := List.mem_map.mp hsub
    rw [if_neg (h p hp)]
  rw [hnil]
  rfl

/-- C3 (counterexample): at metadata (45, 5, 6) no metric scores below
0.7, and the single fallback emitted is the source string "Video quality
is excellent! No major improvements needed", not the claim's "Quality is
excellent; no major improvements needed.". -/
theorem recommendations_fallback_cex :
    (∀ p ∈ (assess_video true
        { duration := 45, scene_count := 5, concept_count := 6 }).metrics,
      ¬ p.2.score < 0.7) ∧
    (assess_video true
        { duration := 45, scene_count := 5, concept_count := 6 }).recommendations
      = ["Video quality is excellent! No major improvements needed"] ∧
    (assess_video true
        { duration := 45, scene_count := 5, concept_count := 6 }).recommendations
      ≠ ["Quality is excellent; no major improvements needed."] := by
  refine ⟨?_, ?_, ?_⟩ <;> with_unfolding_all decide

/-- C3 (amended): for every metadata, each metric scoring below 0.7
whose (name, status) pair has an entry in the fixed lookup table
contributes that entry's message to the recommendations; the pair
(content_clarity, unknown) — reachable with score 0 — has no table entry
and contributes nothing; and when no metric scores below 0.7 the
recommendations are exactly the single fallback string "Video quality is
excellent! No major improvements needed". -/
theorem recommendations_characterization (metadata : ArtifactMetadata) :
    (∀ p ∈ (assess_video true metadata).metrics, p.2.score < 0.7 →
      ∀ s ∈ recommendation_messages p.1 p.2.status,
        s ∈ (assess_video true metadata).recommendations) ∧
    ((∀ p ∈ (assess_video true metadata).metrics, ¬ p.2.score < 0.7) →
      (assess_video true metadata).recommendations
        = ["Video quality is excellent! No major improvements needed"]) ∧
    recommendation_messages "content_clarity" "unknown" = [] := by
  have hkey : (assess_video true metadata).recommendations
      = _generate_recommendations ((assess_video true metadata).metrics) := rfl
  refine ⟨?_, ?_, rfl⟩
  · intro p hp hlt s hsm
    rw [hkey]
    exact mem_generate_recommendations hp hlt hsm
  · intro h
    rw [hkey]
    exact generate_recommendations_fallback h

/-- C3 (amended, witness): at metadata (5, 20, 0) the duration metric
scores 0.4 with status too_short, and its table message appears among
the recommendations. -/
theorem recommendations_characterization_witness :
    "Add more explanatory scenes to increase duration"
      ∈ (assess_video true
          { duration := 5, scene_count := 20, concept_count := 0 }).recommendations :=
  (recommendations_characterization
      { duration := 5, scene_count := 20, concept_count := 0 }).1
    ("duration", { score := 0.4, status := "too_short" })
    (by with_unfolding_all decide) (by with_unfolding_all decide)
    "Add more explanatory scenes to increase duration" (by decide)

/-- The rating bands as the spec words them (refinement side of C7):
at least 0.8 is Excellent, at least 0.7 Good, at least 0.6 Fair, and
anything lower NeedsImprovement; the values are the source's rating
strings (NeedsImprovement is the source string "Needs Improvement"). -/
def rating_of_score (score : ℚ) : String :=
  if score ≥ 0.8 then "Excellent"
  else if score ≥ 0.7 then "Good"
  else if score ≥ 0.6 then "Fair"
  else "Needs Improvement"

/-- C7: with an existing artifact, the overall score is the arithmetic
mean of the scores of exactly the metrics present (pacing present
precisely when `scene_count` is positive), and the rating is the fixed
monotone banding of the overall score. -/
theorem overall_score_mean_and_rating (metadata : ArtifactMetadata) :
    (assess_video true metadata).overall_score
      = ((assess_video true metadata).metrics.map (fun m => m.2.score)).sum
          / (((assess_video true metadata).metrics.map (fun m => m.2.score)).length : ℚ) ∧
    ("pacing" ∈ (assess_video true metadata).metrics.map Prod.fst
      ↔ 0 < metadata.scene_count) ∧
    (assess_video true metadata).rating
      = rating_of_score ((assess_video true metadata).overall_score) := by
  refine ⟨?_, ?_, rfl⟩
  · by_cases h : metadata.scene_count > 0 <;> simp [assess_video, h]
  · by_cases h : metadata.scene_count > 0 <;> simp [assess_video, h]

/-- C7 (witness): the mean and banding property at a concrete
metadata value. -/
theorem overall_score_mean_and_rating_witness :
    ("pacing" ∈ (assess_video true
        { duration := 45, scene_count := 5, concept_count := 6 }).metrics.map Prod.fst
      ↔ 0 < (5 : Nat)) ∧
    (assess_video true
        { duration := 45, scene_count := 5, concept_count := 6 }).rating
      = rating_of_score ((assess_video true
          { duration := 45, scene_count := 5, concept_count := 6 }).overall_score) :=
  ⟨(overall_score_mean_and_rating
      { duration := 45, scene_count := 5, concept_count := 6 }).2.1,
    (overall_score_mean_and_rating
      { duration := 45, scene_count := 5, concept_count := 6 }).2.2⟩

theorem map_fst_nodup_eq {l : List (String × MetricResult)}
    (h : (l.map Prod.fst).Nodup) {n : String} {a b : MetricResult}
    (ha : (n, a) ∈ l) (hb : (n, b) ∈ l) : a = b := by
  induction l with
  | nil => cases ha
  | cons p t ih =>
    rw [List.map_cons, List.nodup_cons] at h
    rcases List.mem_cons.mp ha with ha' | ha' <;> rcases List.mem_cons.mp hb with hb' | hb'
    · rw [← ha'] at hb'
      exact (Prod.mk.injEq _ _ _ _ ▸ hb').2.symm
    · rw [← ha'] at h
      exact absurd (List.mem_map_of_mem Prod.fst hb') h.1
    · rw [← hb'] at h
      exact absurd (List.mem_map_of_mem Prod.fst ha') h.1
    · exact ih h.2 ha' hb'

theorem mem_map_fst_filter_iff (p : String × MetricResult → Bool)
    {l : List (String × MetricResult)} (hnd : (l.map Prod.fst).Nodup)
    {n : String} {mr : MetricResult} (hx : (n, mr) ∈ l) :
    n ∈ (l.filter p).map Prod.fst ↔ p (n, mr) = true := by
  constructor
  · intro h
    obtain ⟨y, hy, hyx⟩ := List.mem_map.mp h
    have hyl := List.mem_filter.mp hy
    obtain ⟨y₁, y₂⟩ := y
    cases hyx
    have : y₂ = mr := map_fst_nodup_eq hnd hyl.1 hx
    rw [← this]
    exact hyl.2
  · intro h
    exact List.mem_map.mpr ⟨(n, mr), List.mem_filter.mpr ⟨hx, h⟩, rfl⟩

theorem assess_metrics_names_nodup (metadata : ArtifactMetadata) :
    ((assess_video true metadata).metrics.map Prod.fst).Nodup := by
  by_cases h : metadata.scene_count > 0 <;> simp [assess_video, h]

/-- C10: with an existing artifact, a metric's name appears among the
strengths exactly when its score is at least 0.8, among the weaknesses
exactly when its score is below 0.6, and never in both. -/
theorem strengths_weaknesses_characterization (metadata : ArtifactMetadata) :
    (∀ p ∈ (assess_video true metadata).metrics,
      (p.1 ∈ (assess_video true metadata).strengths ↔ p.2.score ≥ 0.8) ∧
      (p.1 ∈ (assess_video true metadata).weaknesses ↔ p.2.score < 0.6)) ∧
    (∀ n : String, n ∈ (assess_video true metadata).strengths →
      n ∉ (assess_video true metadata).weaknesses) := by
  have hnd := assess_metrics_names_nodup metadata
  have hstr : (assess_video true metadata).strengths
      = ((assess_video true metadata).metrics.filter
          (fun m => decide (m.2.score ≥ 0.8))).map Prod.fst := rfl
  have hweak : (assess_video true metadata).weaknesses
      = ((assess_video true metadata).metrics.filter
          (fun m => decide (¬ m.2.score ≥ 0.8 ∧ m.2.score < 0.6))).map Prod.fst := rfl
  constructor
  · intro p hp
    obtain ⟨n, mr⟩ := p
    constructor
    · rw [hstr, mem_map_fst_filter_iff _ hnd hp]
      simp
    · rw [hweak, mem_map_fst_filter_iff _ hnd hp]
      simp only [decide_eq_true_eq]
      constructor
      · intro h
        exact h.2
      · intro h
        refine ⟨fun hge => ?_, h⟩
        have : (0.6 : ℚ) ≤ 0.8 := by norm_num
        exact absurd (lt_of_lt_of_le h (le_trans this hge)) (lt_irrefl _)
  · intro n hs hw
    rw [hstr] at hs
    obtain ⟨⟨n₁, mr₁⟩, hy, hyx⟩ := List.mem_map.mp hs
    cases hyx
    have h₁ := List.mem_filter.mp hy
    rw [hweak] at hw
    obtain ⟨⟨n₂, mr₂⟩, hz, hzx⟩ := List.mem_map.mp hw
    cases hzx
    have h₂ := List.mem_filter.mp hz
    have heq : mr₁ = mr₂ := map_fst_nodup_eq hnd h₁.1 h₂.1
    have hge : mr₁.score ≥ 0.8 := by simpa using h₁.2
    have hnot : ¬ mr₂.score ≥ 0.8 := by
      have := h₂.2
      simp only [decide_eq_true_eq] at this
      exact this.1
    rw [heq] at hge
    exact hnot hge

/-- C10 (witness): at metadata (45, 5, 6) the duration metric scores 1.0
and so its name is among the strengths and not among the weaknesses. -/
theorem strengths_weaknesses_witness :
    "duration" ∈ (assess_video true
        { duration := 45, scene_count := 5, concept_count := 6 }).strengths ∧
    "duration" ∉ (assess_video true
        { duration := 45, scene_count := 5, concept_count := 6 }).weaknesses := by
  have h := strengths_weaknesses_characterization
    { duration := 45, scene_count := 5, concept_count := 6 }
  have hmem : ("duration", ({ score := 1.0, status := "optimal" } : MetricResult))
      ∈ (assess_video true
          { duration := 45, scene_count := 5, concept_count := 6 }).metrics := by
    with_unfolding_all decide
  have hs := (h.1 _ hmem).1.mpr (by norm_num)
  exact ⟨hs, h.2 _ hs⟩

end ATG
